import Mathlib

/-!
Verification of the autograd binding layer
`AMGSRN/Models/AMGSRN/AMG_Encoder/__init__.py`.

The layer wraps three native entry points (`_C.createTransformationMatrices*`,
`_C.encode*`, `_C.featureDensity*`) as `torch.autograd.Function`s.  We embed it
shallowly: a tensor is a shape together with a total element function, the
native extension is a parameter structure (its kernels are opaque to this
layer), each autograd Function's `forward` returns its output paired with the
saved-tensor context, and each `backward` returns a tuple of `Option`
gradients (`none` embeds Python's `None`).  The `needs_input_grad` flags of
the autograd engine are passed explicitly to `forward`.  A second, `Except`
valued family of definitions embeds the same glue code over fallible native
entry points, to state exception propagation.
-/

/-- A 5-dimensional tensor: a shape for each of its five axes and a total
function giving the element at each multi-index.  Indices outside the shape
carry values the binding layer never inspects. -/
structure Tensor5 (α : Type) where
  shape : Fin 5 → Nat
  data : (Fin 5 → Nat) → α

/-- A 2-dimensional tensor, used for the query-coordinate matrix. -/
structure Tensor2 (α : Type) where
  shape : Fin 2 → Nat
  data : (Fin 2 → Nat) → α

/-- Inverse of a function on `Fin 5`, computed by search.  It is the true
inverse whenever the function is a permutation, which holds for every
`.permute` argument appearing in the source. -/
def finInv5 (p : Fin 5 → Fin 5) (m : Fin 5) : Fin 5 :=
  (((List.finRange 5).find? (fun k => p k == m)).getD 0)

/-- Inverse of a function on `Fin 2`, computed by search. -/
def finInv2 (p : Fin 2 → Fin 2) (m : Fin 2) : Fin 2 :=
  (((List.finRange 2).find? (fun k => p k == m)).getD 0)

/-- `t.permute p` embeds `t.permute(p 0, ..., p 4)`: axis `i` of the result is
axis `p i` of `t`, so the element at multi-index `idx` of the result is the
element of `t` whose index along axis `m` is `idx (p⁻¹ m)`. -/
def Tensor5.permute (t : Tensor5 α) (p : Fin 5 → Fin 5) : Tensor5 α where
  shape := fun i => t.shape (p i)
  data := fun idx => t.data (fun m => idx (finInv5 p m))

/-- `t.permute p` for 2-dimensional tensors, embedding `t.permute(p 0, p 1)`. -/
def Tensor2.permute (t : Tensor2 α) (p : Fin 2 → Fin 2) : Tensor2 α where
  shape := fun i => t.shape (p i)
  data := fun idx => t.data (fun m => idx (finInv2 p m))

/-- `.contiguous()` changes only the memory layout, never the shape or the
elements; on the value level it is the identity. -/
def Tensor5.contiguous (t : Tensor5 α) : Tensor5 α := t

/-- `.contiguous()` for 2-dimensional tensors. -/
def Tensor2.contiguous (t : Tensor2 α) : Tensor2 α := t

/-- The native extension `_C`.  `T` is the type of the tensors this layer
never marshals (rotations, scales, translations, outputs, gradients); the
query coordinates and feature grids, which the layer permutes, are typed
concretely so that the marshalling is visible. -/
structure NativeExt (T α : Type) where
  createTransformationMatricesForward : T → T → T → T
  createTransformationMatricesBackward : T → T → T → T → T × T × T
  encodeForward : Tensor2 α → T → T → T → Tensor5 α → T
  encodeBackward : Tensor2 α → T → T → T → Tensor5 α → T → Tensor5 α
  featureDensityForward : T → T → T → T → T
  featureDensityBackward : T → T → T → T → T → T × T × T

variable {T α ε : Type}

/-- `CreateTransformationMatricesFunction.forward`: saves the three inputs
(`ctx.save_for_backward`) and returns the native forward result.  First
component: the returned tensor; second component: the saved tensors. -/
def CreateTransformationMatricesFunction.forward (C : NativeExt T α)
    (rotations scales translations : T) : T × (T × T × T) :=
  (C.createTransformationMatricesForward rotations scales translations,
   (rotations, scales, translations))

/-- `CreateTransformationMatricesFunction.backward`: calls the native backward
on the saved tensors and the incoming gradient and returns the three
gradients, each a supplied (non-`None`) tensor. -/
def CreateTransformationMatricesFunction.backward (C : NativeExt T α)
    (saved : T × T × T) (grad_output : T) : Option T × Option T × Option T :=
  let r := C.createTransformationMatricesBackward saved.1 saved.2.1 saved.2.2 grad_output
  (some r.1, some r.2.1, some r.2.2)

/-- `EncodeCoordinates.forward`: permutes the query coordinates by `(1, 0)`
and the feature grids by `(2, 3, 4, 0, 1)` (both made contiguous), calls the
native forward, and saves the marshalled tensors exactly when any of
`needs_input_grad[1:]` (rotations, scales, translations, feature grids)
holds. -/
def EncodeCoordinates.forward (C : NativeExt T α) (needs_input_grad : Fin 5 → Bool)
    (query_coordinates : Tensor2 α) (rotations scales translations : T)
    (feature_grids : Tensor5 α) :
    T × Option (Tensor2 α × T × T × T × Tensor5 α) :=
  let permuted_query := (query_coordinates.permute ![1, 0]).contiguous
  let permuted_grids := (feature_grids.permute ![2, 3, 4, 0, 1]).contiguous
  let feature_vectors :=
    C.encodeForward permuted_query rotations scales translations permuted_grids
  let saved :=
    if needs_input_grad 1 || needs_input_grad 2 || needs_input_grad 3 || needs_input_grad 4
    then some (permuted_query, rotations, scales, translations, permuted_grids)
    else none
  (feature_vectors, saved)

/-- `EncodeCoordinates.backward`: if nothing was saved, returns `None` for all
five inputs without touching the native extension; otherwise calls the native
backward, permutes the gradient by `(3, 4, 0, 1, 2)` (made contiguous) and
returns it in the feature-grids slot, `None` everywhere else. -/
def EncodeCoordinates.backward (C : NativeExt T α)
    (saved : Option (Tensor2 α × T × T × T × Tensor5 α)) (grad_output : T) :
    Option T × Option T × Option T × Option T × Option (Tensor5 α) :=
  match saved with
  | none => (none, none, none, none, none)
  | some (query_coordinates, rotations, scales, translations, feature_grids) =>
    let grad_feature_grids :=
      C.encodeBackward query_coordinates rotations scales translations feature_grids grad_output
    let grad_feature_grids := (grad_feature_grids.permute ![3, 4, 0, 1, 2]).contiguous
    (none, none, none, none, some grad_feature_grids)

/-- `FeatureDensity.forward`: calls the native forward on the unmodified
inputs and always saves all four of them. -/
def FeatureDensity.forward (C : NativeExt T α)
    (query_coordinates rotations scales translations : T) :
    T × (T × T × T × T) :=
  (C.featureDensityForward query_coordinates rotations scales translations,
   (query_coordinates, rotations, scales, translations))

/-- `FeatureDensity.backward`: calls the native backward on the saved tensors
and the incoming gradient, returning `None` for the query coordinates and the
three native gradients for rotations, scales, translations. -/
def FeatureDensity.backward (C : NativeExt T α)
    (saved : T × T × T × T) (grad_output : T) :
    Option T × Option T × Option T × Option T :=
  let r := C.featureDensityBackward saved.1 saved.2.1 saved.2.2.1 saved.2.2.2 grad_output
  (none, some r.1, some r.2.1, some r.2.2)

/-- Public wrapper `create_transformation_matrices`: applies the autograd
Function and yields its forward output. -/
def create_transformation_matrices (C : NativeExt T α)
    (rotations scales translations : T) : T :=
  (CreateTransformationMatricesFunction.forward C rotations scales translations).1

/-- Public wrapper `encode`: applies the autograd Function and yields its
forward output. -/
def encode (C : NativeExt T α) (needs_input_grad : Fin 5 → Bool)
    (query_coordinates : Tensor2 α) (rotations scales translations : T)
    (feature_grids : Tensor5 α) : T :=
  (EncodeCoordinates.forward C needs_input_grad query_coordinates
    rotations scales translations feature_grids).1

/-- Public wrapper `feature_density`: applies the autograd Function and yields
its forward output. -/
def feature_density (C : NativeExt T α)
    (query_coordinates rotations scales translations : T) : T :=
  (FeatureDensity.forward C query_coordinates rotations scales translations).1

/-- The native extension with fallible entry points, for stating exception
propagation: each kernel either returns a value or raises an exception of
type `ε`. -/
structure NativeExtE (ε T α : Type) where
  createTransformationMatricesForward : T → T → T → Except ε T
  createTransformationMatricesBackward : T → T → T → T → Except ε (T × T × T)
  encodeForward : Tensor2 α → T → T → T → Tensor5 α → Except ε T
  encodeBackward : Tensor2 α → T → T → T → Tensor5 α → T → Except ε (Tensor5 α)
  featureDensityForward : T → T → T → T → Except ε T
  featureDensityBackward : T → T → T → T → T → Except ε (T × T × T)

/-- The glue of `CreateTransformationMatricesFunction.forward` over a fallible
native extension: the source has no exception handler, so the native call's
outcome is mapped through unchanged. -/
def CreateTransformationMatricesFunction.forwardE (C : NativeExtE ε T α)
    (rotations scales translations : T) : Except ε (T × (T × T × T)) :=
  (C.createTransformationMatricesForward rotations scales translations).map
    (fun result => (result, (rotations, scales, translations)))

/-- The glue of `CreateTransformationMatricesFunction.backward` over a
fallible native extension. -/
def CreateTransformationMatricesFunction.backwardE (C : NativeExtE ε T α)
    (saved : T × T × T) (grad_output : T) :
    Except ε (Option T × Option T × Option T) :=
  (C.createTransformationMatricesBackward saved.1 saved.2.1 saved.2.2 grad_output).map
    (fun r => (some r.1, some r.2.1, some r.2.2))

/-- The glue of `EncodeCoordinates.forward` over a fallible native
extension. -/
def EncodeCoordinates.forwardE (C : NativeExtE ε T α) (needs_input_grad : Fin 5 → Bool)
    (query_coordinates : Tensor2 α) (rotations scales translations : T)
    (feature_grids : Tensor5 α) :
    Except ε (T × Option (Tensor2 α × T × T × T × Tensor5 α)) :=
  (C.encodeForward ((query_coordinates.permute ![1, 0]).contiguous) rotations scales
      translations ((feature_grids.permute ![2, 3, 4, 0, 1]).contiguous)).map
    (fun feature_vectors =>
      (feature_vectors,
       if needs_input_grad 1 || needs_input_grad 2 || needs_input_grad 3 || needs_input_grad 4
       then some ((query_coordinates.permute ![1, 0]).contiguous, rotations, scales,
                  translations, (feature_grids.permute ![2, 3, 4, 0, 1]).contiguous)
       else none))

/-- The glue of `EncodeCoordinates.backward` over a fallible native
extension. -/
def EncodeCoordinates.backwardE (C : NativeExtE ε T α)
    (saved : Option (Tensor2 α × T × T × T × Tensor5 α)) (grad_output : T) :
    Except ε (Option T × Option T × Option T × Option T × Option (Tensor5 α)) :=
  match saved with
  | none => Except.ok (none, none, none, none, none)
  | some (query_coordinates, rotations, scales, translations, feature_grids) =>
    (C.encodeBackward query_coordinates rotations scales translations feature_grids
        grad_output).map
      (fun g => (none, none, none, none, some ((g.permute ![3, 4, 0, 1, 2]).contiguous)))

/-- The glue of `FeatureDensity.forward` over a fallible native extension. -/
def FeatureDensity.forwardE (C : NativeExtE ε T α)
    (query_coordinates rotations scales translations : T) :
    Except ε (T × (T × T × T × T)) :=
  (C.featureDensityForward query_coordinates rotations scales translations).map
    (fun density => (density, (query_coordinates, rotations, scales, translations)))

/-- The glue of `FeatureDensity.backward` over a fallible native extension. -/
def FeatureDensity.backwardE (C : NativeExtE ε T α)
    (saved : T × T × T × T) (grad_output : T) :
    Except ε (Option T × Option T × Option T × Option T) :=
  (C.featureDensityBackward saved.1 saved.2.1 saved.2.2.1 saved.2.2.2 grad_output).map
    (fun r => (none, some r.1, some r.2.1, some r.2.2))

/-- Mapping a pure function over an `Except` neither creates nor hides an
error: the result is `error e` exactly when the argument is. -/
theorem exceptMap_error_iff {A B : Type} (x : Except ε A) (f : A → B) (e : ε) :
    x.map f = Except.error e ↔ x = Except.error e := by
  cases x <;> simp [Except.map]

/-- A concrete native extension over natural numbers, used to instantiate
witnesses and counterexamples. -/
def exC : NativeExt Nat Nat where
  createTransformationMatricesForward := fun a b c => a + b + c
  createTransformationMatricesBackward := fun _ _ _ g => (g, g + 1, g + 2)
  encodeForward := fun q r s t f => q.data (fun _ => 0) + r + s + t + f.data (fun _ => 0)
  encodeBackward := fun _ _ _ _ f _ => f
  featureDensityForward := fun q r s t => q * r + s * t
  featureDensityBackward := fun _ _ _ _ g => (g, g + 1, g + 2)

/-- A concrete query-coordinate tensor. -/
def exQ : Tensor2 Nat := ⟨![3, 2], fun idx => idx 0 + 10 * idx 1⟩

/-- A concrete feature-grid tensor. -/
def exG : Tensor5 Nat :=
  ⟨![1, 2, 3, 4, 5], fun idx => idx 0 + idx 1 + idx 2 + idx 3 + idx 4⟩

/-- Gradient-requirement flags under which only rotations (input index 1)
requires a gradient. -/
def exNeeds : Fin 5 → Bool := fun i => i == 1

/-- Gradient-requirement flags under which only the query coordinates
(input index 0) require a gradient. -/
def exNeeds0 : Fin 5 → Bool := fun i => i == 0

/-- C1: `create_transformation_matrices` returns exactly the tensor produced
by the native entry point `createTransformationMatricesForward` on the same
unmodified inputs; its forward saves exactly those inputs, and its backward
returns exactly the three gradient tensors (for rotations, scales,
translations, in that order) produced by
`createTransformationMatricesBackward` on the saved inputs and the incoming
output gradient. -/
theorem create_transformation_matrices_native_roundtrip
    (C : NativeExt T α) (rotations scales translations : T) :
    create_transformation_matrices C rotations scales translations =
      C.createTransformationMatricesForward rotations scales translations ∧
    (CreateTransformationMatricesFunction.forward C rotations scales translations).2 =
      (rotations, scales, translations) ∧
    ∀ grad_output : T,
      CreateTransformationMatricesFunction.backward C
          (rotations, scales, translations) grad_output =
        (some (C.createTransformationMatricesBackward rotations scales translations
                grad_output).1,
         some (C.createTransformationMatricesBackward rotations scales translations
                grad_output).2.1,
         some (C.createTransformationMatricesBackward rotations scales translations
                grad_output).2.2) :=
  ⟨rfl, rfl, fun _ => rfl⟩

/-- C2 counterexample: with only rotations recorded as requiring a gradient,
`encode`'s backward still returns `None` in the rotations slot, so the claim
that each backward supplies a gradient tensor for every recorded input is
false as stated. -/
theorem encode_backward_missing_rotations_grad :
    exNeeds 1 = true ∧
    ((EncodeCoordinates.forward exC exNeeds exQ 7 8 9 exG).2).isSome = true ∧
    (EncodeCoordinates.backward exC
        (EncodeCoordinates.forward exC exNeeds exQ 7 8 9 exG).2 3).2.1 = none := by
  refine ⟨rfl, rfl, rfl⟩

/-- C2 amended: `create_transformation_matrices`'s backward supplies gradient
tensors for all three of its inputs, `feature_density`'s backward supplies
gradient tensors for rotations, scales and translations and `None` for the
query coordinates, while `encode`'s backward supplies a gradient tensor only
for the feature grids (whenever anything was saved), returning `None` for the
query coordinates, rotations, scales and translations. -/
theorem backward_gradient_slots (C : NativeExt T α) :
    (∀ (saved : T × T × T) (g : T),
      CreateTransformationMatricesFunction.backward C saved g =
        (some (C.createTransformationMatricesBackward saved.1 saved.2.1 saved.2.2 g).1,
         some (C.createTransformationMatricesBackward saved.1 saved.2.1 saved.2.2 g).2.1,
         some (C.createTransformationMatricesBackward saved.1 saved.2.1 saved.2.2 g).2.2)) ∧
    (∀ (saved : T × T × T × T) (g : T),
      FeatureDensity.backward C saved g =
        (none,
         some (C.featureDensityBackward saved.1 saved.2.1 saved.2.2.1 saved.2.2.2 g).1,
         some (C.featureDensityBackward saved.1 saved.2.1 saved.2.2.1 saved.2.2.2 g).2.1,
         some (C.featureDensityBackward saved.1 saved.2.1 saved.2.2.1 saved.2.2.2 g).2.2)) ∧
    (∀ (s : Tensor2 α × T × T × T × Tensor5 α) (g : T),
      EncodeCoordinates.backward C (some s) g =
        (none, none, none, none,
         some (((C.encodeBackward s.1 s.2.1 s.2.2.1 s.2.2.2.1 s.2.2.2.2
                  g).permute ![3, 4, 0, 1, 2]).contiguous))) := by
  refine ⟨fun _ _ => rfl, fun _ _ => rfl, fun s g => ?_⟩
  obtain ⟨q, r, sc, tr, fg⟩ := s
  rfl

/-- C3: `encode`'s forward result is exactly the value returned by the native
entry point `encodeForward` applied to the marshalled inputs: the query
coordinates with axes transposed by `(1, 0)` and made contiguous, the feature
grids with axes reordered by `(2, 3, 4, 0, 1)` and made contiguous, and
rotations, scales and translations passed through unchanged. -/
theorem encode_forward_marshalling (C : NativeExt T α)
    (needs_input_grad : Fin 5 → Bool) (query_coordinates : Tensor2 α)
    (rotations scales translations : T) (feature_grids : Tensor5 α) :
    encode C needs_input_grad query_coordinates rotations scales translations
        feature_grids =
      C.encodeForward ((query_coordinates.permute ![1, 0]).contiguous)
        rotations scales translations
        ((feature_grids.permute ![2, 3, 4, 0, 1]).contiguous) :=
  rfl

/-- C4: `encode`'s forward saves tensors for the backward pass exactly when at
least one of rotations, scales, translations or feature grids requires a
gradient; in particular, the query coordinates requiring a gradient alone
causes nothing to be saved. -/
theorem encode_saves_iff_nonquery_grad (C : NativeExt T α)
    (needs_input_grad : Fin 5 → Bool) (query_coordinates : Tensor2 α)
    (rotations scales translations : T) (feature_grids : Tensor5 α) :
    ((EncodeCoordinates.forward C needs_input_grad query_coordinates rotations
        scales translations feature_grids).2).isSome =
      (needs_input_grad 1 || needs_input_grad 2 || needs_input_grad 3 ||
        needs_input_grad 4) ∧
    (EncodeCoordinates.forward C (fun i => i == 0) query_coordinates rotations
        scales translations feature_grids).2 = none := by
  constructor
  · cases h : (needs_input_grad 1 || needs_input_grad 2 || needs_input_grad 3 ||
        needs_input_grad 4) <;> simp [EncodeCoordinates.forward, h]
  · rfl

/-- C5: each of the three operations raises exactly when its native entry
point raises, with the very same exception, and produces no result tensor on
error: over fallible native entry points, every forward and backward of the
glue is the native call's outcome mapped through pure marshalling, so it is
`error e` precisely when the native call is. -/
theorem native_error_propagation (C : NativeExtE ε T α) (e : ε) :
    (∀ rotations scales translations : T,
      CreateTransformationMatricesFunction.forwardE C rotations scales translations =
          Except.error e ↔
        C.createTransformationMatricesForward rotations scales translations =
          Except.error e) ∧
    (∀ (saved : T × T × T) (g : T),
      CreateTransformationMatricesFunction.backwardE C saved g = Except.error e ↔
        C.createTransformationMatricesBackward saved.1 saved.2.1 saved.2.2 g =
          Except.error e) ∧
    (∀ (needs_input_grad : Fin 5 → Bool) (query_coordinates : Tensor2 α)
        (rotations scales translations : T) (feature_grids : Tensor5 α),
      EncodeCoordinates.forwardE C needs_input_grad query_coordinates rotations
          scales translations feature_grids = Except.error e ↔
        C.encodeForward ((query_coordinates.permute ![1, 0]).contiguous) rotations
          scales translations ((feature_grids.permute ![2, 3, 4, 0, 1]).contiguous) =
          Except.error e) ∧
    (∀ (s : Tensor2 α × T × T × T × Tensor5 α) (g : T),
      EncodeCoordinates.backwardE C (some s) g = Except.error e ↔
        C.encodeBackward s.1 s.2.1 s.2.2.1 s.2.2.2.1 s.2.2.2.2 g = Except.error e) ∧
    (∀ query_coordinates rotations scales translations : T,
      FeatureDensity.forwardE C query_coordinates rotations scales translations =
          Except.error e ↔
        C.featureDensityForward query_coordinates rotations scales translations =
          Except.error e) ∧
    (∀ (saved : T × T × T × T) (g : T),
      FeatureDensity.backwardE C saved g = Except.error e ↔
        C.featureDensityBackward saved.1 saved.2.1 saved.2.2.1 saved.2.2.2 g =
          Except.error e) := by
  refine ⟨fun r s t => exceptMap_error_iff _ _ e,
          fun saved g => exceptMap_error_iff _ _ e,
          fun n q r s t f => exceptMap_error_iff _ _ e,
          fun s g => ?_,
          fun q r s t => exceptMap_error_iff _ _ e,
          fun saved g => exceptMap_error_iff _ _ e⟩
  obtain ⟨q, r, sc, tr, fg⟩ := s
  exact exceptMap_error_iff _ _ e

/-- C6: `feature_density` is a pure pass-through: its forward returns exactly
`featureDensityForward` applied to the four unmodified inputs, its forward
saves exactly those inputs, and its backward returns the three gradients for
rotations, scales and translations produced by `featureDensityBackward` on
the saved inputs and the output gradient. -/
theorem feature_density_passthrough (C : NativeExt T α)
    (query_coordinates rotations scales translations : T) :
    feature_density C query_coordinates rotations scales translations =
      C.featureDensityForward query_coordinates rotations scales translations ∧
    (FeatureDensity.forward C query_coordinates rotations scales translations).2 =
      (query_coordinates, rotations, scales, translations) ∧
    ∀ grad_output : T,
      FeatureDensity.backward C
          (query_coordinates, rotations, scales, translations) grad_output =
        (none,
         some (C.featureDensityBackward query_coordinates rotations scales
                translations grad_output).1,
         some (C.featureDensityBackward query_coordinates rotations scales
                translations grad_output).2.1,
         some (C.featureDensityBackward query_coordinates rotations scales
                translations grad_output).2.2) :=
  ⟨rfl, rfl, fun _ => rfl⟩

/-- C7: the three public functions are exactly the forward outputs of their
paired forward/backward computations, each forward output is the raw value of
a native call (nothing is computed in this layer), and the only value a
backward pass computes beyond native results is an axis permutation of a
native result. -/
theorem public_boundary_native_results (C : NativeExt T α) :
    (∀ rotations scales translations : T,
      create_transformation_matrices C rotations scales translations =
        (CreateTransformationMatricesFunction.forward C rotations scales
          translations).1 ∧
      (CreateTransformationMatricesFunction.forward C rotations scales
          translations).1 =
        C.createTransformationMatricesForward rotations scales translations) ∧
    (∀ (needs_input_grad : Fin 5 → Bool) (query_coordinates : Tensor2 α)
        (rotations scales translations : T) (feature_grids : Tensor5 α),
      encode C needs_input_grad query_coordinates rotations scales translations
          feature_grids =
        (EncodeCoordinates.forward C needs_input_grad query_coordinates rotations
          scales translations feature_grids).1 ∧
      (EncodeCoordinates.forward C needs_input_grad query_coordinates rotations
          scales translations feature_grids).1 =
        C.encodeForward ((query_coordinates.permute ![1, 0]).contiguous) rotations
          scales translations ((feature_grids.permute ![2, 3, 4, 0, 1]).contiguous)) ∧
    (∀ query_coordinates rotations scales translations : T,
      feature_density C query_coordinates rotations scales translations =
        (FeatureDensity.forward C query_coordinates rotations scales
          translations).1 ∧
      (FeatureDensity.forward C query_coordinates rotations scales
          translations).1 =
        C.featureDensityForward query_coordinates rotations scales translations) ∧
    (∀ (s : Tensor2 α × T × T × T × Tensor5 α) (g : T),
      (EncodeCoordinates.backward C (some s) g).2.2.2.2 =
        some (((C.encodeBackward s.1 s.2.1 s.2.2.1 s.2.2.2.1 s.2.2.2.2
                 g).permute ![3, 4, 0, 1, 2]).contiguous)) := by
  refine ⟨fun r s t => ⟨rfl, rfl⟩, fun n q r s t f => ⟨rfl, rfl⟩,
          fun q r s t => ⟨rfl, rfl⟩, fun s g => ?_⟩
  obtain ⟨q, r, sc, tr, fg⟩ := s
  rfl

/-- C8: the backward permutation `(3, 4, 0, 1, 2)` is the inverse of the
forward permutation `(2, 3, 4, 0, 1)`: permuting any 5-dimensional tensor by
the one and then by the other (with the `.contiguous()` calls of the source)
is the identity, so the feature-grids gradient that `encode`'s backward
builds by permuting the native gradient has the axis layout of the original
`feature_grids` input. -/
theorem feature_grids_permute_roundtrip (t : Tensor5 α) :
    (((t.permute ![2, 3, 4, 0, 1]).contiguous.permute ![3, 4, 0, 1, 2]).contiguous = t) ∧
    ∀ (C : NativeExt T α) (s : Tensor2 α × T × T × T × Tensor5 α) (g : T),
      (EncodeCoordinates.backward C (some s) g).2.2.2.2 =
        some ((C.encodeBackward s.1 s.2.1 s.2.2.1 s.2.2.2.1 s.2.2.2.2
                g).permute ![3, 4, 0, 1, 2]) := by
  have hq : ∀ m : Fin 5,
      finInv5 ![3, 4, 0, 1, 2] (finInv5 ![2, 3, 4, 0, 1] m) = m := by decide
  have hp : ∀ i : Fin 5,
      (![2, 3, 4, 0, 1] : Fin 5 → Fin 5) (![3, 4, 0, 1, 2] i) = i := by decide
  constructor
  · obtain ⟨s, d⟩ := t
    simp only [Tensor5.permute, Tensor5.contiguous]
    congr 1
    · funext i
      exact congrArg s (hp i)
    · funext idx
      exact congrArg d (funext fun m => congrArg idx (hq m))
  · intro C s g
    obtain ⟨q, r, sc, tr, fg⟩ := s
    rfl

/-- C9: `feature_density` never supplies a gradient with respect to the query
coordinates: for every native extension, saved tensors and output gradient,
its backward returns `None` in the query-coordinates position. -/
theorem feature_density_no_query_grad (C : NativeExt T α)
    (saved : T × T × T × T) (grad_output : T) :
    (FeatureDensity.backward C saved grad_output).1 = none :=
  rfl

/-- C10: if none of rotations, scales, translations, feature grids requires a
gradient when `encode` is called, nothing is saved, and the backward pass
returns `None` for all five inputs; it never invokes the native backward
entry point, reflected by the result being the same for every native
extension `Cb` used on the backward pass. -/
theorem encode_backward_no_saved_no_native
    (C Cb : NativeExt T α) (needs_input_grad : Fin 5 → Bool)
    (h1 : needs_input_grad 1 = false) (h2 : needs_input_grad 2 = false)
    (h3 : needs_input_grad 3 = false) (h4 : needs_input_grad 4 = false)
    (query_coordinates : Tensor2 α) (rotations scales translations : T)
    (feature_grids : Tensor5 α) (grad_output : T) :
    (EncodeCoordinates.forward C needs_input_grad query_coordinates rotations
        scales translations feature_grids).2 = none ∧
    EncodeCoordinates.backward Cb
        (EncodeCoordinates.forward C needs_input_grad query_coordinates rotations
          scales translations feature_grids).2 grad_output =
      (none, none, none, none, none) := by
  have hsaved : (EncodeCoordinates.forward C needs_input_grad query_coordinates
      rotations scales translations feature_grids).2 = none := by
    simp [EncodeCoordinates.forward, h1, h2, h3, h4]
  exact ⟨hsaved, by rw [hsaved]; rfl⟩

/-- C10 witness: with only the query coordinates requiring a gradient,
`encode` saves nothing and its backward returns `None` for all five
inputs. -/
theorem encode_backward_no_saved_no_native_witness :
    exNeeds0 1 = false ∧
    (EncodeCoordinates.forward exC exNeeds0 exQ 7 8 9 exG).2 = none ∧
    EncodeCoordinates.backward exC
        (EncodeCoordinates.forward exC exNeeds0 exQ 7 8 9 exG).2 3 =
      (none, none, none, none, none) :=
  ⟨rfl,
   (encode_backward_no_saved_no_native exC exC exNeeds0 rfl rfl rfl rfl
      exQ 7 8 9 exG 3).1,
   (encode_backward_no_saved_no_native exC exC exNeeds0 rfl rfl rfl rfl
      exQ 7 8 9 exG 3).2⟩
